import Mathlib

/-!
Verification of the visitor-management server (`server.js`) against its
natural-language specification.

The embedding models the single `visitors` table as a list of records plus
the auto-increment counter, and each HTTP handler as a pure function on that
store.  External collaborators (SMTP, QR renderer) are modelled by boolean
failure oracles, matching the fire-and-forget structure of the source.
-/

namespace VMS

/-- A row of the `visitors` table (see `initializeDatabase` in `server.js`).
Timestamps are modelled as naturals; `out_time`, `security_out_time`,
`photo_path` and `qr_code_path` are nullable. -/
structure Visitor where
  id : Nat
  full_name : String
  contact_number : String
  department_visiting : String
  person_to_visit : String
  in_time : Nat
  out_time : Option Nat
  security_confirmed : Bool
  security_out_time : Option Nat
  photo_path : Option String
  email_sent : Bool
  approved : Bool
  qr_code_path : Option String
deriving Repr, DecidableEq

/-- The database: the `visitors` table plus the AUTOINCREMENT counter
(the id the next successful INSERT will receive). -/
structure Store where
  visitors : List Visitor
  nextId : Nat
deriving Repr, DecidableEq

/-- A fresh database: no rows, ids start at 1. -/
def emptyStore : Store := { visitors := [], nextId := 1 }

/-- JavaScript falsiness of an optional string field of `req.body`:
`undefined` (missing) and the empty string are falsy; any other string,
including whitespace-only strings, is truthy.  Mirrors
`if (!full_name || ...)` in the registration handler. -/
def jsFalsy : Option String → Bool
  | none => true
  | some s => s.isEmpty

/-- The SQLite CHECK constraint `contact_number GLOB '[0-9]*'`:
`[0-9]` matches exactly one digit and `*` matches any remaining
characters, so the pattern constrains only the first character. -/
def globDigitStar (s : String) : Bool :=
  match s.data with
  | [] => false
  | c :: _ => c.isDigit

/-- `UPDATE visitors SET ... WHERE id = ?`: apply `f` to every row whose
id matches (ids are unique in practice, but SQL updates all matches). -/
def updateWhereId (f : Visitor → Visitor) (id : Nat) (l : List Visitor) : List Visitor :=
  l.map (fun v => if v.id = id then f v else v)

/-- A multipart registration request (`POST /api/visitors`): the four text
fields may be absent, and the photo upload is optional. -/
structure RegisterRequest where
  full_name : Option String
  contact_number : Option String
  department_visiting : Option String
  person_to_visit : Option String
  photo : Option String
deriving Repr, DecidableEq

/-- Failure oracles for the external side channels invoked by registration:
QR-file rendering (`QRCode.toFile`) and the two `transporter.sendMail`
calls.  `true` means that call throws. -/
structure SideEffects where
  qrFails : Bool
  hrEmailFails : Bool
  hostEmailFails : Bool
deriving Repr, DecidableEq

/-- All side channels succeed. -/
def fxOk : SideEffects := { qrFails := false, hrEmailFails := false, hostEmailFails := false }

/-- Outcome of `sendEmails`: which sends were attempted, and whether the
`UPDATE visitors SET email_sent = 1` statement ran.  The source wraps
both sends and the update in a single try/catch, so an HR failure skips
the host send and the flag update. -/
structure EmailResult where
  hrAttempted : Bool
  hostAttempted : Bool
  emailSentFlag : Bool
deriving Repr, DecidableEq

/-- `sendEmails` from `server.js`: send to HR, then to the host, then set
`email_sent = 1`; any thrown error aborts the rest and is swallowed. -/
def sendEmails (hrFails hostFails : Bool) : EmailResult :=
  if hrFails then { hrAttempted := true, hostAttempted := false, emailSentFlag := false }
  else if hostFails then { hrAttempted := true, hostAttempted := true, emailSentFlag := false }
  else { hrAttempted := true, hostAttempted := true, emailSentFlag := true }

/-- Result of `POST /api/visitors`: 400 on validation failure, 500 when the
INSERT violates a constraint, 200 with the new id otherwise. -/
inductive RegisterResult where
  | validationFailed
  | storageFailed
  | ok (id : Nat)
deriving Repr, DecidableEq

/-- The row INSERTed by a successful registration: the four text fields,
`in_time := now`, nullable fields defaulted, plus the net effect of the
two follow-up UPDATEs (`qr_code_path` when QR rendering succeeded,
`email_sent` when both sends succeeded). -/
def newVisitor (s : Store) (req : RegisterRequest) (now : Nat) (fx : SideEffects) : Visitor :=
  { id := s.nextId
    full_name := req.full_name.getD ""
    contact_number := req.contact_number.getD ""
    department_visiting := req.department_visiting.getD ""
    person_to_visit := req.person_to_visit.getD ""
    in_time := now
    out_time := none
    security_confirmed := false
    security_out_time := none
    photo_path := req.photo
    email_sent := (sendEmails fx.hrEmailFails fx.hostEmailFails).emailSentFlag
    approved := false
    qr_code_path := if fx.qrFails then none
                    else some ("uploads/qr-" ++ toString s.nextId ++ ".png") }

/-- The `POST /api/visitors` handler: falsy-check the four fields, INSERT
(subject to the `chk_contact` GLOB constraint), then best-effort QR
generation (`qr_code_path` update) and `sendEmails` (`email_sent` update),
and finally respond with the new id.  Side-channel failures never change
the response. -/
def register (s : Store) (req : RegisterRequest) (now : Nat) (fx : SideEffects) :
    RegisterResult × Store :=
  if jsFalsy req.full_name || jsFalsy req.contact_number ||
     jsFalsy req.department_visiting || jsFalsy req.person_to_visit then
    (RegisterResult.validationFailed, s)
  else if globDigitStar (req.contact_number.getD "") = false then
    (RegisterResult.storageFailed, s)
  else
    (RegisterResult.ok s.nextId,
     { visitors := s.visitors ++ [newVisitor s req now fx], nextId := s.nextId + 1 })

/-- Result of `GET /api/visitors/:id/approve`: 404 when the UPDATE matched
no row, otherwise the confirmation page built from the updated record. -/
inductive ApproveResult where
  | notFound
  | ok (v : Visitor)
deriving Repr, DecidableEq

/-- The `GET /api/visitors/:id/approve` handler: run
`UPDATE visitors SET approved = 1 WHERE id = ?`, return 404 when
`this.changes === 0`, otherwise SELECT the row back and render it. -/
def approve (s : Store) (id : Nat) : ApproveResult × Store :=
  if s.visitors.countP (fun v => v.id = id) = 0 then
    (ApproveResult.notFound,
     { s with visitors := updateWhereId (fun v => { v with approved := true }) id s.visitors })
  else
    match (updateWhereId (fun v => { v with approved := true }) id s.visitors).find?
        (fun v => v.id = id) with
    | none =>
        (ApproveResult.notFound,
         { s with visitors := updateWhereId (fun v => { v with approved := true }) id s.visitors })
    | some v =>
        (ApproveResult.ok v,
         { s with visitors := updateWhereId (fun v => { v with approved := true }) id s.visitors })

/-- The `POST /api/visitors/:id/release` handler: run
`UPDATE visitors SET out_time = ? WHERE id = ?` and respond 200.  The
handler never inspects `this.changes`, so the status is 200 whether or
not any row matched. -/
def release (s : Store) (id : Nat) (now : Nat) : Nat × Store :=
  (200, { s with visitors := updateWhereId (fun v => { v with out_time := some now }) id s.visitors })

/-- The `POST /api/visitors/:id/security-checkout` handler: run
`UPDATE visitors SET security_confirmed = 1, security_out_time = ? WHERE id = ?`
and respond 200, again without inspecting `this.changes`. -/
def securityCheckout (s : Store) (id : Nat) (now : Nat) : Nat × Store :=
  let f : Visitor → Visitor :=
    fun v => { v with security_confirmed := true, security_out_time := some now }
  (200, { s with visitors := updateWhereId f id s.visitors })

/-- The aggregate returned by `GET /api/visitors/stats`. -/
structure StatsRow where
  total : Nat
  active : Nat
  secured : Nat
  security_pending : Nat
deriving Repr, DecidableEq

/-- The `GET /api/visitors/stats` handler: one aggregate SELECT counting
all rows, rows with `out_time IS NULL`, rows with `out_time` set and
`security_confirmed = 1`, and rows with `out_time` set and
`security_confirmed = 0`. -/
def stats (s : Store) : StatsRow :=
  { total := s.visitors.length
    active := s.visitors.countP (fun v => v.out_time.isNone)
    secured := s.visitors.countP (fun v => v.out_time.isSome && v.security_confirmed)
    security_pending := s.visitors.countP (fun v => v.out_time.isSome && !v.security_confirmed) }

/-- The `status` query parameter of `GET /api/visitors`; `all` is the
absence of a recognised value (no WHERE clause). -/
inductive Filter where
  | all
  | active
  | released
  | securityPending
deriving Repr, DecidableEq

/-- The WHERE clause selected by each `status` value. -/
def matchesFilter : Filter → Visitor → Bool
  | Filter.all, _ => true
  | Filter.active, v => v.out_time.isNone
  | Filter.released, v => v.out_time.isSome && v.security_confirmed
  | Filter.securityPending, v => v.out_time.isSome && !v.security_confirmed

/-- `ORDER BY in_time DESC`: row `a` may precede row `b` when
`b.in_time ≤ a.in_time`. -/
def inTimeGE (a b : Visitor) : Prop := b.in_time ≤ a.in_time

instance : DecidableRel inTimeGE := fun a b => Nat.decLe b.in_time a.in_time

instance : IsTotal Visitor inTimeGE :=
  ⟨fun a b => Or.symm (Nat.le_total a.in_time b.in_time)⟩

instance : IsTrans Visitor inTimeGE :=
  ⟨fun _ _ _ hab hbc => Nat.le_trans hbc hab⟩

/-- The `GET /api/visitors` handler: filter by status, then
`ORDER BY in_time DESC`. -/
def listVisitors (s : Store) (f : Filter) : List Visitor :=
  List.insertionSort inTimeGE (s.visitors.filter (matchesFilter f))

/-- One state-mutating API call, for reasoning about operation sequences. -/
inductive Op where
  | register (req : RegisterRequest) (now : Nat) (fx : SideEffects)
  | approve (id : Nat)
  | release (id : Nat) (now : Nat)
  | securityCheckout (id : Nat) (now : Nat)
deriving Repr, DecidableEq

/-- The store produced by one API call (discarding the HTTP response). -/
def applyOp (s : Store) : Op → Store
  | Op.register req now fx => (register s req now fx).2
  | Op.approve id => (approve s id).2
  | Op.release id now => (release s id now).2
  | Op.securityCheckout id now => (securityCheckout s id now).2

/-- The store after a sequence of API calls. -/
def runOps (s : Store) (ops : List Op) : Store := ops.foldl applyOp s

/-- The valid registration used in the spec's end-to-end scenarios. -/
def janeReq : RegisterRequest :=
  { full_name := some "Jane Doe", contact_number := some "5551234567",
    department_visiting := some "Engineering", person_to_visit := some "John Smith",
    photo := none }

/-- A request whose `full_name` is a single space: truthy in JavaScript,
yet empty after trimming. -/
def blankNameReq : RegisterRequest :=
  { full_name := some " ", contact_number := some "5551234567",
    department_visiting := some "Engineering", person_to_visit := some "John Smith",
    photo := none }

/-- A request whose contact number starts with a digit but contains a
non-digit character. -/
def mixedContactReq : RegisterRequest :=
  { full_name := some "Jane Doe", contact_number := some "5a",
    department_visiting := some "Engineering", person_to_visit := some "John Smith",
    photo := none }

/-- A request whose contact number has no digit at all. -/
def alphaContactReq : RegisterRequest :=
  { full_name := some "Jane Doe", contact_number := some "abc",
    department_visiting := some "Engineering", person_to_visit := some "John Smith",
    photo := none }

/-- The store after registering Jane at time 5 with all side channels up. -/
def sReg : Store := (register emptyStore janeReq 5 fxOk).2

/-- Jane's row after a security checkout at time 12 that was never
preceded by a release: `security_confirmed` is set while `out_time` is
still null. -/
def janeSecuredUnreleased : Visitor :=
  { id := 1, full_name := "Jane Doe", contact_number := "5551234567",
    department_visiting := "Engineering", person_to_visit := "John Smith",
    in_time := 5, out_time := none, security_confirmed := true,
    security_out_time := some 12, photo_path := none, email_sent := true,
    approved := false, qr_code_path := some "uploads/qr-1.png" }

/-- Jane's row when the HR email throws during registration: `email_sent`
stays 0 while the QR path update still lands. -/
def janeHrFailRecord : Visitor :=
  { id := 1, full_name := "Jane Doe", contact_number := "5551234567",
    department_visiting := "Engineering", person_to_visit := "John Smith",
    in_time := 5, out_time := none, security_confirmed := false,
    security_out_time := none, photo_path := none, email_sent := false,
    approved := false, qr_code_path := some "uploads/qr-1.png" }

/-- `sReg` after releasing visitor 1 at time 10. -/
def sRel : Store := (release sReg 1 10).2

/-- Jane's row in `sRel`: released at 10, security confirmation pending. -/
def janeReleased : Visitor :=
  { id := 1, full_name := "Jane Doe", contact_number := "5551234567",
    department_visiting := "Engineering", person_to_visit := "John Smith",
    in_time := 5, out_time := some 10, security_confirmed := false,
    security_out_time := none, photo_path := none, email_sent := true,
    approved := false, qr_code_path := some "uploads/qr-1.png" }

/-! ## Helper lemmas -/

/-- A SQL UPDATE whose WHERE clause matches no row leaves the table
unchanged. -/
theorem updateWhereId_eq_of_forall_ne (f : Visitor → Visitor) (id : Nat)
    (l : List Visitor) (h : ∀ v ∈ l, v.id ≠ id) : updateWhereId f id l = l := by
  unfold updateWhereId
  conv_rhs => rw [← List.map_id l]
  exact List.map_congr_left fun v hv => by simp [h v hv]

/-- Every row of an updated table is the image of an original row. -/
theorem mem_updateWhereId (f : Visitor → Visitor) (id : Nat) (l : List Visitor)
    (v : Visitor) (hv : v ∈ updateWhereId f id l) :
    ∃ w ∈ l, v = if w.id = id then f w else w := by
  rcases List.mem_map.mp hv with ⟨w, hw, hweq⟩
  exact ⟨w, hw, hweq.symm⟩

/-- The image of an original row is in the updated table. -/
theorem updateWhereId_mem_of_mem (f : Visitor → Visitor) (id : Nat) (l : List Visitor)
    (v : Visitor) (hv : v ∈ l) : (if v.id = id then f v else v) ∈ updateWhereId f id l :=
  List.mem_map_of_mem _ hv

/-- Every branch of the approve handler leaves the table in the same
updated shape. -/
theorem approve_visitors (s : Store) (id : Nat) :
    (approve s id).2.visitors = updateWhereId (fun v => { v with approved := true }) id s.visitors := by
  unfold approve
  split
  · rfl
  · split <;> rfl

/-- Registration either leaves the store untouched (validation or
constraint failure) or appends exactly the new row, in which case the
contact number passed the GLOB constraint. -/
theorem register_store_cases (s : Store) (req : RegisterRequest) (now : Nat) (fx : SideEffects) :
    (register s req now fx).2 = s ∨
    (globDigitStar (req.contact_number.getD "") = true ∧
     (register s req now fx).2 =
       { visitors := s.visitors ++ [newVisitor s req now fx], nextId := s.nextId + 1 }) := by
  unfold register
  split
  · exact Or.inl rfl
  · split
    · exact Or.inl rfl
    · next h => exact Or.inr ⟨by simpa using h, rfl⟩

/-- Pre-existing rows survive a registration attempt. -/
theorem register_mem_of_mem (s : Store) (req : RegisterRequest) (now : Nat)
    (fx : SideEffects) (v : Visitor) (hv : v ∈ s.visitors) :
    v ∈ (register s req now fx).2.visitors := by
  rcases register_store_cases s req now fx with h | ⟨-, h⟩ <;> rw [h]
  · exact hv
  · exact List.mem_append_left _ hv

/-- Membership in a listing is exactly filter membership (the sort is a
permutation). -/
theorem mem_listVisitors (s : Store) (f : Filter) (v : Visitor) :
    v ∈ listVisitors s f ↔ v ∈ s.visitors ∧ matchesFilter f v = true := by
  simp [listVisitors, List.mem_insertionSort, List.mem_filter]

/-! ## Claims -/

/-- C1 (amended): the release and security-checkout handlers never inspect
the UPDATE's affected-row count, so on an unknown id each returns
HTTP 200 — not 404 — while mutating no record. -/
theorem release_checkout_unknown_id_noop (s : Store) (id now : Nat)
    (h : ∀ v ∈ s.visitors, v.id ≠ id) :
    (release s id now).1 = 200 ∧ (release s id now).2 = s ∧
    (securityCheckout s id now).1 = 200 ∧ (securityCheckout s id now).2 = s := by
  refine ⟨rfl, ?_, rfl, ?_⟩
  · show ({ s with visitors := updateWhereId _ id s.visitors } : Store) = s
    rw [updateWhereId_eq_of_forall_ne _ _ _ h]
  · show ({ s with visitors := updateWhereId _ id s.visitors } : Store) = s
    rw [updateWhereId_eq_of_forall_ne _ _ _ h]

/-- Witness for C1: on the empty store, releasing and security-checking-out
the unknown id 999 return 200 and leave the store empty. -/
theorem release_checkout_unknown_id_noop_witness :
    (release emptyStore 999 7).1 = 200 ∧ (release emptyStore 999 7).2 = emptyStore ∧
    (securityCheckout emptyStore 999 7).1 = 200 ∧
    (securityCheckout emptyStore 999 7).2 = emptyStore :=
  release_checkout_unknown_id_noop emptyStore 999 7 (by simp [emptyStore])

/-- Counterexample to C1 as stated: Release(999) and ConfirmSecurity(999)
on the empty store respond 200, not 404, so neither fails with
NotFoundError. -/
theorem release_checkout_unknown_id_returns_200 :
    (release emptyStore 999 7).1 = 200 ∧ ¬(release emptyStore 999 7).1 = 404 ∧
    (securityCheckout emptyStore 999 7).1 = 200 ∧
    ¬(securityCheckout emptyStore 999 7).1 = 404 := by decide

/-- C2 (amended): `out_time`, once set, is never cleared — every operation
maps a row with non-null `out_time` to a row with the same id and
non-null `out_time` — although a repeated Release overwrites the stored
value with the later call's timestamp. -/
theorem out_time_never_cleared (s : Store) (op : Op) (v : Visitor)
    (hv : v ∈ s.visitors) (hsome : v.out_time.isSome = true) :
    ∃ v' ∈ (applyOp s op).visitors, v'.id = v.id ∧ v'.out_time.isSome = true := by
  cases op with
  | register req now fx =>
    exact ⟨v, register_mem_of_mem s req now fx v hv, rfl, hsome⟩
  | approve id =>
    refine ⟨if v.id = id then { v with approved := true } else v, ?_, ?_, ?_⟩
    · show _ ∈ (approve s id).2.visitors
      rw [approve_visitors]
      exact updateWhereId_mem_of_mem _ _ _ _ hv
    · split <;> rfl
    · split <;> exact hsome
  | release id now =>
    refine ⟨if v.id = id then { v with out_time := some now } else v, ?_, ?_, ?_⟩
    · exact updateWhereId_mem_of_mem _ _ _ _ hv
    · split <;> rfl
    · split
      · rfl
      · exact hsome
  | securityCheckout id now =>
    refine ⟨if v.id = id
        then { v with security_confirmed := true, security_out_time := some now }
        else v, ?_, ?_, ?_⟩
    · exact updateWhereId_mem_of_mem _ _ _ _ hv
    · split <;> rfl
    · split <;> exact hsome

/-- Witness for C2 (amended): applying a further Release to Jane's already
released row keeps a row with her id and a non-null `out_time`. -/
theorem out_time_never_cleared_witness :
    ∃ v' ∈ (applyOp sRel (Op.release 1 20)).visitors,
      v'.id = janeReleased.id ∧ v'.out_time.isSome = true :=
  out_time_never_cleared sRel (Op.release 1 20) janeReleased (by decide) (by decide)

/-- Counterexample to C2 as stated: after Release(1) at time 10 the row's
`out_time` is 10, but a second Release(1) at time 20 alters it to 20 —
a subsequent operation does alter a set `out_time`. -/
theorem second_release_overwrites_out_time :
    ¬ (∀ v : Visitor,
        v ∈ (runOps emptyStore [Op.register janeReq 5 fxOk, Op.release 1 10]).visitors →
        ∀ v' : Visitor,
        v' ∈ (runOps emptyStore
                [Op.register janeReq 5 fxOk, Op.release 1 10, Op.release 1 20]).visitors →
        v'.id = v.id → v.out_time.isSome = true → v'.out_time = v.out_time) := by decide

/-- C3 (amended): registration fails with ValidationError (400) and
creates no record exactly when one of the four required fields is missing
or is the empty string; the check is JavaScript falsiness, with no
trimming, so whitespace-only fields are accepted. -/
theorem register_validation_iff (s : Store) (req : RegisterRequest) (now : Nat)
    (fx : SideEffects) :
    register s req now fx = (RegisterResult.validationFailed, s) ↔
      (jsFalsy req.full_name || jsFalsy req.contact_number ||
       jsFalsy req.department_visiting || jsFalsy req.person_to_visit) = true := by
  unfold register
  cases hcond : (jsFalsy req.full_name || jsFalsy req.contact_number ||
      jsFalsy req.department_visiting || jsFalsy req.person_to_visit) with
  | true => simp
  | false =>
    simp only [Bool.false_eq_true, if_false, iff_false]
    split <;> simp

/-- Counterexample to C3 as stated: a `full_name` of a single space is
empty after trimming, yet registration succeeds and inserts a record. -/
theorem register_accepts_whitespace_only_name :
    (" ").data.all Char.isWhitespace = true ∧
    (register emptyStore blankNameReq 5 fxOk).1 = RegisterResult.ok 1 ∧
    (register emptyStore blankNameReq 5 fxOk).2.visitors.length = 1 := by decide

/-- C4 (amended): `security_confirmed` becomes true only through the
security-checkout operation, which sets it — together with
`security_out_time` — unconditionally for the target id, with no
requirement that `out_time` already be set. -/
theorem security_confirmed_only_via_checkout :
    (∀ (s : Store) (id now : Nat) (v : Visitor),
        v ∈ ((securityCheckout s id now).2).visitors → v.id = id →
        v.security_confirmed = true ∧ v.security_out_time = some now)
  ∧ (∀ (s : Store) (op : Op) (v' : Visitor),
        v' ∈ (applyOp s op).visitors → v'.security_confirmed = true →
        (∃ v ∈ s.visitors, v.id = v'.id ∧ v.security_confirmed = true)
      ∨ ∃ id now, op = Op.securityCheckout id now ∧ v'.id = id) := by
  constructor
  · intro s id now v hv hid
    rcases mem_updateWhereId _ _ _ _ hv with ⟨w, hw, heq⟩
    subst heq
    by_cases h : w.id = id
    · rw [if_pos h]
      exact ⟨rfl, rfl⟩
    · rw [if_neg h] at hid
      exact absurd hid h
  · intro s op v' hv' hconf
    cases op with
    | register req now fx =>
      simp only [applyOp] at hv'
      rcases register_store_cases s req now fx with h | ⟨-, h⟩
      · rw [h] at hv'
        exact Or.inl ⟨v', hv', rfl, hconf⟩
      · rw [h] at hv'
        rcases List.mem_append.mp hv' with h1 | h1
        · exact Or.inl ⟨v', h1, rfl, hconf⟩
        · rw [List.mem_singleton.mp h1] at hconf
          simp [newVisitor] at hconf
    | approve id =>
      have hv2 : v' ∈ updateWhereId (fun v => { v with approved := true }) id s.visitors := by
        rw [← approve_visitors]; exact hv'
      rcases mem_updateWhereId _ _ _ _ hv2 with ⟨w, hw, heq⟩
      subst heq
      by_cases h : w.id = id
      · rw [if_pos h] at hconf ⊢
        exact Or.inl ⟨w, hw, rfl, hconf⟩
      · rw [if_neg h] at hconf ⊢
        exact Or.inl ⟨w, hw, rfl, hconf⟩
    | release id now =>
      rcases mem_updateWhereId _ _ _ _ hv' with ⟨w, hw, heq⟩
      subst heq
      by_cases h : w.id = id
      · rw [if_pos h] at hconf ⊢
        exact Or.inl ⟨w, hw, rfl, hconf⟩
      · rw [if_neg h] at hconf ⊢
        exact Or.inl ⟨w, hw, rfl, hconf⟩
    | securityCheckout id now =>
      rcases mem_updateWhereId _ _ _ _ hv' with ⟨w, hw, heq⟩
      subst heq
      by_cases h : w.id = id
      · refine Or.inr ⟨id, now, rfl, ?_⟩
        rw [if_pos h]
        exact h
      · rw [if_neg h] at hconf ⊢
        exact Or.inl ⟨w, hw, rfl, hconf⟩

/-- Witness for C4 (amended): a security checkout of the never-released
Jane sets her flag and `security_out_time`, and the only-via-checkout
disjunction holds for that operation. -/
theorem security_confirmed_only_via_checkout_witness :
    (janeSecuredUnreleased.security_confirmed = true ∧
     janeSecuredUnreleased.security_out_time = some 12) ∧
    ((∃ v ∈ sReg.visitors, v.id = janeSecuredUnreleased.id ∧ v.security_confirmed = true) ∨
     ∃ id now, Op.securityCheckout 1 12 = Op.securityCheckout id now ∧
       janeSecuredUnreleased.id = id) :=
  ⟨security_confirmed_only_via_checkout.1 sReg 1 12 janeSecuredUnreleased (by decide) rfl,
   security_confirmed_only_via_checkout.2 sReg (Op.securityCheckout 1 12)
     janeSecuredUnreleased (by decide) rfl⟩

/-- Counterexample to C4 as stated: registering and then calling
security-checkout without any release reaches a store holding a record
with `security_confirmed` true and `out_time` null. -/
theorem security_checkout_without_release :
    ∃ v ∈ (runOps emptyStore [Op.register janeReq 5 fxOk, Op.securityCheckout 1 10]).visitors,
      v.security_confirmed = true ∧ v.out_time = none := by decide

/-- C5: once the INSERT succeeds, registration responds with the new id
regardless of the side-effect oracles (QR rendering or either email may
throw), and the inserted record is in the store with the submitted
fields. -/
theorem register_side_channel_immune (s : Store) (req : RegisterRequest) (now : Nat)
    (fx : SideEffects)
    (h1 : jsFalsy req.full_name = false) (h2 : jsFalsy req.contact_number = false)
    (h3 : jsFalsy req.department_visiting = false) (h4 : jsFalsy req.person_to_visit = false)
    (hg : globDigitStar (req.contact_number.getD "") = true) :
    (register s req now fx).1 = RegisterResult.ok s.nextId ∧
    ∃ v ∈ (register s req now fx).2.visitors,
      v.id = s.nextId ∧ v.full_name = req.full_name.getD "" ∧
      v.contact_number = req.contact_number.getD "" ∧ v.out_time = none := by
  have hreg : register s req now fx =
      (RegisterResult.ok s.nextId,
       { visitors := s.visitors ++ [newVisitor s req now fx], nextId := s.nextId + 1 }) := by
    simp [register, h1, h2, h3, h4, hg]
  rw [hreg]
  exact ⟨rfl, newVisitor s req now fx,
    List.mem_append_right _ (List.mem_singleton_self _), rfl, rfl, rfl, rfl⟩

/-- Witness for C5: with every side channel failing (QR and both emails
throw), registering Jane still returns her id and stores her record. -/
theorem register_side_channel_immune_witness :
    (register emptyStore janeReq 5 ⟨true, true, true⟩).1 = RegisterResult.ok emptyStore.nextId ∧
    ∃ v ∈ (register emptyStore janeReq 5 ⟨true, true, true⟩).2.visitors,
      v.id = emptyStore.nextId ∧ v.full_name = janeReq.full_name.getD "" ∧
      v.contact_number = janeReq.contact_number.getD "" ∧ v.out_time = none :=
  register_side_channel_immune emptyStore janeReq 5 ⟨true, true, true⟩
    (by decide) (by decide) (by decide) (by decide) (by decide)

/-- C9 (amended): every row ever inserted has a contact number whose
first character is a digit — the storage CHECK `GLOB '[0-9]*'` constrains
only the first character — and a registration whose contact number does
not start with a digit fails at the storage layer (500) and creates no
record; digits-only is not enforced. -/
theorem contact_first_char_digit_invariant :
    (∀ (s : Store) (op : Op),
        (∀ v ∈ s.visitors, globDigitStar v.contact_number = true) →
        ∀ v ∈ (applyOp s op).visitors, globDigitStar v.contact_number = true)
  ∧ (∀ (s : Store) (req : RegisterRequest) (now : Nat) (fx : SideEffects),
        jsFalsy req.full_name = false → jsFalsy req.contact_number = false →
        jsFalsy req.department_visiting = false → jsFalsy req.person_to_visit = false →
        globDigitStar (req.contact_number.getD "") = false →
        register s req now fx = (RegisterResult.storageFailed, s)) := by
  constructor
  · intro s op hall v hv
    cases op with
    | register req now fx =>
      simp only [applyOp] at hv
      rcases register_store_cases s req now fx with h | ⟨hg, h⟩
      · rw [h] at hv
        exact hall v hv
      · rw [h] at hv
        rcases List.mem_append.mp hv with h1 | h1
        · exact hall v h1
        · rw [List.mem_singleton.mp h1]
          exact hg
    | approve id =>
      have hv2 : v ∈ updateWhereId (fun v => { v with approved := true }) id s.visitors := by
        rw [← approve_visitors]; exact hv
      rcases mem_updateWhereId _ _ _ _ hv2 with ⟨w, hw, heq⟩
      subst heq
      split <;> exact hall w hw
    | release id now =>
      rcases mem_updateWhereId _ _ _ _ hv with ⟨w, hw, heq⟩
      subst heq
      split <;> exact hall w hw
    | securityCheckout id now =>
      rcases mem_updateWhereId _ _ _ _ hv with ⟨w, hw, heq⟩
      subst heq
      split <;> exact hall w hw
  · intro s req now fx h1 h2 h3 h4 hg
    simp [register, h1, h2, h3, h4, hg]

/-- Witness for C9 (amended): registering Jane preserves the first-char
invariant on the empty store, and a registration with contact "abc" is
rejected by the constraint, leaving the store unchanged. -/
theorem contact_first_char_digit_invariant_witness :
    (∀ v ∈ (applyOp emptyStore (Op.register janeReq 5 fxOk)).visitors,
        globDigitStar v.contact_number = true) ∧
    register emptyStore alphaContactReq 5 fxOk = (RegisterResult.storageFailed, emptyStore) :=
  ⟨contact_first_char_digit_invariant.1 emptyStore (Op.register janeReq 5 fxOk)
      (by simp [emptyStore]),
   contact_first_char_digit_invariant.2 emptyStore alphaContactReq 5 fxOk
      (by decide) (by decide) (by decide) (by decide) (by decide)⟩

/-- Counterexample to C9 as stated: contact number "5a" contains a
non-digit, yet registration succeeds and stores the record. -/
theorem register_accepts_nondigit_contact :
    (register emptyStore mixedContactReq 5 fxOk).1 = RegisterResult.ok 1 ∧
    ∃ v ∈ (register emptyStore mixedContactReq 5 fxOk).2.visitors,
      v.contact_number.data.all Char.isDigit = false := by decide

/-- C6: in every store state the stats aggregate satisfies
total = active + secured + security_pending: each row has `out_time`
null, or set with the flag true, or set with the flag false. -/
theorem stats_partition (s : Store) :
    (stats s).total = (stats s).active + (stats s).secured + (stats s).security_pending := by
  obtain ⟨l, n⟩ := s
  simp only [stats]
  induction l with
  | nil => rfl
  | cons v l ih =>
    simp only [List.length_cons, List.countP_cons]
    rcases h : v.out_time with _ | t <;> cases hc : v.security_confirmed <;>
      simp [h, hc] <;> omega

/-- Every row updated by a release carries `out_time = some now` if its id
matches the released id. -/
theorem release_out_time (s : Store) (id now : Nat) (v : Visitor)
    (hv : v ∈ ((release s id now).2).visitors) (hid : v.id = id) :
    v.out_time = some now := by
  rcases mem_updateWhereId _ _ _ _ hv with ⟨w, hw, heq⟩
  subst heq
  by_cases h : w.id = id
  · rw [if_pos h]
  · rw [if_neg h] at hid
    exact absurd hid h

/-- C7: the listing returns exactly the rows matching the filter, sorted
by `in_time` descending, and a released row never appears under the
active filter but appears under released or security-pending according to
its `security_confirmed` flag. -/
theorem list_filter_spec :
    (∀ (s : Store) (f : Filter) (v : Visitor),
        v ∈ listVisitors s f ↔ v ∈ s.visitors ∧ matchesFilter f v = true)
  ∧ (∀ (s : Store) (f : Filter), List.Sorted inTimeGE (listVisitors s f))
  ∧ (∀ (s : Store) (id now : Nat) (v : Visitor),
        v ∈ ((release s id now).2).visitors → v.id = id →
        v ∉ listVisitors (release s id now).2 Filter.active ∧
        (v.security_confirmed = true →
          v ∈ listVisitors (release s id now).2 Filter.released) ∧
        (v.security_confirmed = false →
          v ∈ listVisitors (release s id now).2 Filter.securityPending)) := by
  refine ⟨mem_listVisitors, ?_, ?_⟩
  · intro s f
    exact List.sorted_insertionSort inTimeGE _
  · intro s id now v hv hid
    have hout : v.out_time = some now := release_out_time s id now v hv hid
    refine ⟨?_, ?_, ?_⟩
    · rw [mem_listVisitors]
      rintro ⟨-, hm⟩
      simp [matchesFilter, hout] at hm
    · intro hflag
      rw [mem_listVisitors]
      exact ⟨hv, by simp [matchesFilter, hout, hflag]⟩
    · intro hflag
      rw [mem_listVisitors]
      exact ⟨hv, by simp [matchesFilter, hout, hflag]⟩

/-- Witness for C7: after releasing Jane, her row is absent from the
active listing and present in the security-pending listing (her
`security_confirmed` is false). -/
theorem list_filter_spec_witness :
    janeReleased ∉ listVisitors sRel Filter.active ∧
    janeReleased ∈ listVisitors sRel Filter.securityPending := by
  have h := list_filter_spec.2.2 sReg 1 10 janeReleased (by decide) rfl
  exact ⟨h.1, h.2.2 rfl⟩

/-- A row of an approved table whose id matches the approved id has its
flag set. -/
theorem approved_of_mem_update (id : Nat) (l : List Visitor) (v : Visitor)
    (hv : v ∈ updateWhereId (fun v => { v with approved := true }) id l)
    (hid : v.id = id) : v.approved = true := by
  rcases mem_updateWhereId _ _ _ _ hv with ⟨w, hw, heq⟩
  subst heq
  by_cases h : w.id = id
  · rw [if_pos h]
  · rw [if_neg h] at hid
    exact absurd hid h

/-- Approving preserves the existence of a row with the given id. -/
theorem approve_exists_preserved (s : Store) (id : Nat)
    (hex : ∃ v ∈ s.visitors, v.id = id) :
    ∃ v ∈ (approve s id).2.visitors, v.id = id := by
  rcases hex with ⟨w, hw, hwid⟩
  refine ⟨if w.id = id then { w with approved := true } else w, ?_, ?_⟩
  · rw [approve_visitors]
    exact updateWhereId_mem_of_mem _ _ _ _ hw
  · split <;> exact hwid

/-- When some row has the requested id, approve succeeds and returns a row
with the flag set. -/
theorem approve_result_ok (s : Store) (id : Nat)
    (hex : ∃ v ∈ s.visitors, v.id = id) :
    ∃ v, (approve s id).1 = ApproveResult.ok v ∧ v.approved = true := by
  rcases hex with ⟨w, hw, hwid⟩
  have hcount : ¬s.visitors.countP (fun v => v.id = id) = 0 := by
    intro h0
    have := List.countP_eq_zero.mp h0 w hw
    simp [hwid] at this
  have hmem : (if w.id = id then { w with approved := true } else w) ∈
      updateWhereId (fun v => { v with approved := true }) id s.visitors :=
    updateWhereId_mem_of_mem _ _ _ _ hw
  unfold approve
  rw [if_neg hcount]
  rcases hfind : (updateWhereId (fun v => { v with approved := true }) id s.visitors).find?
      (fun v => v.id = id) with _ | u
  · exfalso
    have hnone := List.find?_eq_none.mp hfind _ hmem
    apply hnone
    split <;> simp [hwid]
  · rw [hfind]
    refine ⟨u, rfl, ?_⟩
    have hu_mem := List.mem_of_find?_eq_some hfind
    have hu_p := List.find?_some hfind
    exact approved_of_mem_update id s.visitors u hu_mem (by simpa using hu_p)

/-- C8: Approve is idempotent — when a row with the id exists, the second
of two Approve calls still succeeds and the row's flag is true — and
Approve on an unknown id returns 404 and changes nothing. -/
theorem approve_idempotent :
    (∀ (s : Store) (id : Nat),
        (∃ v ∈ s.visitors, v.id = id) →
        (∃ v, (approve (approve s id).2 id).1 = ApproveResult.ok v ∧ v.approved = true) ∧
        (∀ v ∈ (approve (approve s id).2 id).2.visitors, v.id = id → v.approved = true))
  ∧ (∀ (s : Store) (id : Nat),
        (∀ v ∈ s.visitors, v.id ≠ id) →
        (approve s id).1 = ApproveResult.notFound ∧ (approve s id).2 = s) := by
  constructor
  · intro s id hex
    have hex1 := approve_exists_preserved s id hex
    constructor
    · exact approve_result_ok _ id hex1
    · intro v hv hid
      rw [approve_visitors] at hv
      exact approved_of_mem_update id _ v hv hid
  · intro s id h
    have hc : s.visitors.countP (fun v => v.id = id) = 0 :=
      List.countP_eq_zero.mpr (fun a ha => by simp [h a ha])
    have happ : approve s id = (ApproveResult.notFound, s) := by
      unfold approve
      rw [if_pos hc, updateWhereId_eq_of_forall_ne _ _ _ h]
    exact ⟨by rw [happ], by rw [happ]⟩

/-- Witness for C8: approving Jane twice succeeds with her flag true, and
approving the unknown id 999 on the empty store returns 404 without
mutation. -/
theorem approve_idempotent_witness :
    ((∃ v, (approve (approve sReg 1).2 1).1 = ApproveResult.ok v ∧ v.approved = true) ∧
     (∀ v ∈ (approve (approve sReg 1).2 1).2.visitors, v.id = 1 → v.approved = true)) ∧
    ((approve emptyStore 999).1 = ApproveResult.notFound ∧
     (approve emptyStore 999).2 = emptyStore) :=
  ⟨approve_idempotent.1 sReg 1 (by decide),
   approve_idempotent.2 emptyStore 999 (by simp [emptyStore])⟩

/-- C10: `email_sent` is set only when both sends succeed; an HR failure
skips the host send entirely, and a freshly inserted record's flag equals
the all-or-nothing outcome of `sendEmails`. -/
theorem email_sent_all_or_nothing :
    (∀ hr host : Bool,
        ((sendEmails hr host).emailSentFlag = true ↔ hr = false ∧ host = false) ∧
        (hr = true → (sendEmails hr host).hostAttempted = false))
  ∧ (∀ (s : Store) (req : RegisterRequest) (now : Nat) (fx : SideEffects) (v : Visitor),
        v ∈ (register s req now fx).2.visitors → v ∉ s.visitors →
        v.email_sent = (sendEmails fx.hrEmailFails fx.hostEmailFails).emailSentFlag) := by
  constructor
  · intro hr host
    cases hr <;> cases host <;> exact ⟨by decide, by decide⟩
  · intro s req now fx v hv hnot
    rcases register_store_cases s req now fx with h | ⟨-, h⟩
    · rw [h] at hv
      exact absurd hv hnot
    · rw [h] at hv
      rcases List.mem_append.mp hv with h1 | h1
      · exact absurd h1 hnot
      · rw [List.mem_singleton.mp h1]
        rfl

/-- Witness for C10: with the HR send throwing, the host send is never
attempted and Jane's stored record has `email_sent` false, matching
`sendEmails`. -/
theorem email_sent_all_or_nothing_witness :
    (sendEmails true false).hostAttempted = false ∧
    janeHrFailRecord.email_sent = (sendEmails true false).emailSentFlag :=
  ⟨(email_sent_all_or_nothing.1 true false).2 rfl,
   email_sent_all_or_nothing.2 emptyStore janeReq 5 ⟨false, true, false⟩ janeHrFailRecord
     (by decide) (by decide)⟩

end VMS
